import Mathlib

/-!
Verification of the SEO audit tool backend (`backend/crawler.py`,
`backend/seo_analyzer.py`, `backend/main.py`, `backend/database.py`).

The Python code works on HTML strings through BeautifulSoup.  Here a page body
is embedded as its parse forest: an inductive tree of elements and text nodes
(`Node`), with BeautifulSoup's `find_all` / `find` modelled as pre-order tree
queries.  An empty body (the falsy empty string in Python) corresponds to the
empty forest.  The network is embedded as a function from URL to
`Except String Response`: `.error` models a transport-level failure (the
`except Exception` branches), `.ok` an HTTP response of any status.
`urllib.parse` helpers (`urlparse`, `urljoin`) are modelled at the character
level for the cases the crawler exercises (absolute, protocol-relative and
path-absolute references); Python's float `round(…, 2)` for page sizes is
modelled over `ℚ`.
-/

/-- An HTML DOM node as produced by BeautifulSoup: either a text fragment or an
element with a tag name, attributes and children. -/
inductive Node where
  | text (s : String)
  | elem (tag : String) (attrs : List (String × String)) (children : List Node)

/-- Tag of an element node, `none` for text nodes. -/
def Node.tagName : Node → Option String
  | .text _ => none
  | .elem t _ _ => some t

/-- Whether a node is an element with the given tag. -/
def Node.tagIs (n : Node) (t : String) : Bool :=
  n.tagName == some t

/-- Attribute lookup on an element node (BeautifulSoup `tag.get(name)`). -/
def Node.getAttr (n : Node) (name : String) : Option String :=
  match n with
  | .text _ => none
  | .elem _ attrs _ => attrs.lookup name

/-- Whether the node carries the given attribute (`href=True` filters). -/
def Node.hasAttr (n : Node) (name : String) : Bool :=
  (n.getAttr name).isSome

/-- Children of a node (empty for text nodes). -/
def Node.childNodes : Node → List Node
  | .text _ => []
  | .elem _ _ cs => cs

mutual
/-- All nodes of the subtree rooted at `n` (the node itself included)
satisfying `p`, in document (pre-)order.  Models BeautifulSoup `find_all`
run from the document root, where the root elements are themselves
candidates. -/
def Node.findAll (p : Node → Bool) : Node → List Node
  | .text s => if p (.text s) then [Node.text s] else []
  | .elem t a cs =>
      (if p (.elem t a cs) then [Node.elem t a cs] else []) ++ Forest.findAll p cs
/-- `find_all` over a forest: concatenation of the per-tree results, in
document order. -/
def Forest.findAll (p : Node → Bool) : List Node → List Node
  | [] => []
  | n :: ns => Node.findAll p n ++ Forest.findAll p ns
end

mutual
/-- The text fragments of a subtree in document order. -/
def Node.innerTexts : Node → List String
  | .text s => [s]
  | .elem _ _ cs => Forest.innerTexts cs
/-- Text fragments of a forest. -/
def Forest.innerTexts : List Node → List String
  | [] => []
  | n :: ns => Node.innerTexts n ++ Forest.innerTexts ns
end

/-- Python `str.strip()` on a string, at the character level. -/
def strTrim (s : String) : String :=
  String.mk (((s.data.dropWhile Char.isWhitespace).reverse.dropWhile
    Char.isWhitespace).reverse)

/-- Python `str.lower()`, at the character level. -/
def strLower (s : String) : String :=
  String.mk (s.data.map Char.toLower)

/-- Split a string at spaces, dropping empty pieces (whitespace word
splitting as BeautifulSoup applies it to multi-valued attributes). -/
def splitWordsAux : List Char → List Char → List String
  | acc, [] => if acc.isEmpty then [] else [String.mk acc.reverse]
  | acc, c :: cs =>
      if c == ' ' then
        if acc.isEmpty then splitWordsAux [] cs
        else String.mk acc.reverse :: splitWordsAux [] cs
      else splitWordsAux (c :: acc) cs

/-- The space-separated words of a string. -/
def splitWords (s : String) : List String :=
  splitWordsAux [] s.data

/-- BeautifulSoup `get_text(strip=True)`: every text fragment stripped of
surrounding whitespace, concatenated. -/
def getTextStrip (n : Node) : String :=
  String.join ((Node.innerTexts n).map strTrim)

/-- Whether `pat` is a prefix of `cs` (character lists). -/
def prefixMatches : List Char → List Char → Bool
  | [], _ => true
  | _ :: _, [] => false
  | p :: ps, c :: cs => p == c && prefixMatches ps cs

/-- Whether `pat` occurs as a contiguous substring of `cs`: Python's
`pat in s`. -/
def containsChars (pat : List Char) : List Char → Bool
  | [] => prefixMatches pat []
  | c :: cs => prefixMatches pat (c :: cs) || containsChars pat cs

/-- Python `pat in s` on strings. -/
def containsSub (s pat : String) : Bool :=
  containsChars pat.data s.data

/-- Characters after the first occurrence of `://`, if any. -/
def afterSchemeSep : List Char → Option (List Char)
  | ':' :: '/' :: '/' :: rest => some rest
  | _ :: rest => afterSchemeSep rest
  | [] => none

/-- Python `url.split('#')[0]`: the prefix of the string before the first
`#` (the crawler's fragment stripping). -/
def stripFragment (u : String) : String :=
  String.mk (u.data.takeWhile (fun c => !(c == '#')))

/-- The network-location component of a URL: `urlparse(u).netloc`, modelled as
the characters between the first `://` and the following `/`, `?` (the
fragment having been split off first, as `urlparse` does). -/
def netloc (u : String) : String :=
  match afterSchemeSep ((u.data.takeWhile (fun c => !(c == '#')))) with
  | some rest => String.mk (rest.takeWhile (fun c => !(c == '/' || c == '?')))
  | none => ""

/-- The scheme component of a URL: `urlparse(u).scheme`, modelled as the
characters before the first `:` when a `://` separator is present. -/
def schemeOf (u : String) : String :=
  match afterSchemeSep (u.data.takeWhile (fun c => !(c == '#'))) with
  | some _ => String.mk (u.data.takeWhile (fun c => !(c == ':')))
  | none => ""

/-- The crawler's base domain `f"{parsed.scheme}://{parsed.netloc}"`
(`crawl_navigation`). -/
def base_domain_of (u : String) : String :=
  schemeOf u ++ "://" ++ netloc u

/-- Modelled from `urllib.parse.urljoin` for the reference shapes the crawler
meets: an absolute URL is kept; a protocol-relative `//…` reference adopts the
base scheme; a path-absolute `/…` reference is resolved against the base
origin; other relative references are resolved against the base origin
(a simplification of full RFC 3986 path merging). -/
def urljoin (base href : String) : String :=
  if (afterSchemeSep href.data).isSome then href
  else if prefixMatches ['/', '/'] href.data then schemeOf base ++ ":" ++ href
  else if prefixMatches ['/'] href.data then base_domain_of base ++ href
  else base_domain_of base ++ "/" ++ href

/-- `NavigationCrawler._is_same_domain`: compare the `netloc` of the two
URLs. -/
def is_same_domain (url base_url : String) : Bool :=
  netloc url == netloc base_url

/-- A raw HTTP response as seen through httpx: status code, parsed body
(`response.text`, embedded as its parse forest), headers, and the byte length
of `response.content`. -/
structure Response where
  status_code : Nat
  text : List Node
  headers : List (String × String)
  content : Nat

/-- The network: every URL is mapped to either a response (`.ok`, any HTTP
status) or a transport-level failure carrying the exception message
(`.error`). -/
def Network : Type := String → Except String Response

/-- Python `round(x, 2)` on the page size, modelled over `ℚ` with round-half-up
(float banker's rounding is not modelled; no claim depends on the tie case). -/
def round2 (q : ℚ) : ℚ :=
  (Rat.floor (q * 100 + 1/2) : ℚ) / 100

/-- The per-page record produced by `NavigationCrawler._crawl_page` and
consumed by `SEOAnalyzer.analyze_page`.  `error` is `some message` exactly for
the failure record (the Python dict only carries the key then). -/
structure PageData where
  url : String
  status_code : Nat
  html : List Node
  headers : List (String × String)
  page_size_kb : ℚ
  internal_links : Nat
  error : Option String

/-- Insertion into the Python `set` of navigation links, modelled as a
duplicate-free list in first-insertion order. -/
def insertURL (l : List String) (u : String) : List String :=
  if u ∈ l then l else l ++ [u]

/-- The strategy-3 element filter of `_extract_navigation_links`:
`find_all(['div', 'ul'], class_=lambda x: x and any(term in str(x).lower()
for term in ['nav', 'menu', 'header']))`.  BeautifulSoup's `class_` argument
inspects only the `class` attribute; an element without one never matches. -/
def navClassHeuristic (n : Node) : Bool :=
  (n.tagIs "div" || n.tagIs "ul") &&
    (match n.getAttr "class" with
     | some c =>
         !c.isEmpty &&
           (["nav", "menu", "header"].any (fun term => containsSub (strLower c) term))
     | none => false)

/-- All `href` values of `<a href=…>` descendants of `n`
(`nav_element.find_all('a', href=True)`). -/
def elemHrefs (n : Node) : List String :=
  (Forest.findAll (fun m => m.tagIs "a" && m.hasAttr "href") n.childNodes).filterMap
    (fun m => m.getAttr "href")

/-- All `href` values of `<a href=…>` nodes of a whole document
(`soup.find_all('a', href=True)` in `_crawl_page`). -/
def docHrefs (doc : List Node) : List String :=
  (Forest.findAll (fun m => m.tagIs "a" && m.hasAttr "href") doc).filterMap
    (fun m => m.getAttr "href")

/-- The body of the extraction loop: resolve `href` against the base URL, keep
it when same-domain, strip the fragment, and insert when non-empty. -/
def addNavLink (base_url : String) (acc : List String) (href : String) : List String :=
  if is_same_domain (urljoin base_url href) base_url then
    if stripFragment (urljoin base_url href) ≠ "" then
      insertURL acc (stripFragment (urljoin base_url href))
    else acc
  else acc

/-- `NavigationCrawler._extract_navigation_links`: ordered fallback over
`<nav>` tags, then `<header>` tags, then div/ul containers with a
navigation-flavoured `class`, then the first `<ul>`; links inside the chosen
elements are resolved, domain-filtered, fragment-stripped and collected into a
set (embedded as a duplicate-free list). -/
def extract_navigation_links (doc : List Node) (base_url : String) : List String :=
  let nav1 := Forest.findAll (fun n => n.tagIs "nav") doc
  let nav2 := if nav1.isEmpty then Forest.findAll (fun n => n.tagIs "header") doc else nav1
  let nav3 := if nav2.isEmpty then Forest.findAll navClassHeuristic doc else nav2
  let navs :=
    if nav3.isEmpty then
      match Forest.findAll (fun n => n.tagIs "ul") doc with
      | [] => []
      | u :: _ => [u]
    else nav3
  navs.foldl (fun acc nel => (elemHrefs nel).foldl (addNavLink base_url) acc) []

/-- `NavigationCrawler._fetch_page`: the body text on a 200 response, `None`
(here `none`) on any other status and on transport failure. -/
def fetch_page (outcome : Network) (url : String) : Option (List Node) :=
  match outcome url with
  | .ok r => if r.status_code == 200 then some r.text else none
  | .error _ => none

/-- The internal-link count of `_crawl_page`: the loop over
`soup.find_all('a', href=True)` incrementing for every href that resolves to
the base domain. -/
def countInternalLinks (doc : List Node) (url base_domain : String) : Nat :=
  (docHrefs doc).foldl
    (fun n href => if is_same_domain (urljoin url href) base_domain then n + 1 else n) 0

/-- The failure record of `_crawl_page`'s `except` branch: status 0, empty
body, empty headers, zero size and link count, the exception message under
`error`. -/
def failedRecord (url e : String) : PageData :=
  { url := url, status_code := 0, html := [], headers := [],
    page_size_kb := 0, internal_links := 0, error := some e }

/-- `NavigationCrawler._crawl_page`: on a response, record status/body/headers
with the computed page size and internal-link count; on any raised failure,
the status-0 failure record. -/
def crawl_page (outcome : Network) (url base_domain : String) : PageData :=
  match outcome url with
  | .ok r =>
      { url := url, status_code := r.status_code, html := r.text,
        headers := r.headers,
        page_size_kb := round2 ((r.content : ℚ) / 1024),
        internal_links := countInternalLinks r.text url base_domain,
        error := none }
  | .error e => failedRecord url e

/-- The set of URLs `crawl_navigation` fans out over: empty when the homepage
fetch yields no usable body (`if not homepage_html: return []`), otherwise the
extracted navigation links with the start URL added
(`nav_links.add(start_url)`). -/
def nav_link_list (outcome : Network) (start_url : String) : List String :=
  match fetch_page outcome start_url with
  | none => []
  | some doc =>
      if doc.isEmpty then []
      else insertURL (extract_navigation_links doc (base_domain_of start_url)) start_url

/-- `NavigationCrawler.crawl_navigation`: one `_crawl_page` record per
navigation link.  `asyncio.gather(…, return_exceptions=True)` followed by the
`isinstance(page, dict)` filter is the identity here since `_crawl_page`
catches every exception and always returns a dict. -/
def crawl_navigation (outcome : Network) (start_url : String) : List PageData :=
  (nav_link_list outcome start_url).map
    (fun u => crawl_page outcome u (base_domain_of start_url))

/-- SEO threshold: minimum title length (`SEOAnalyzer.MIN_TITLE_LENGTH`). -/
def MIN_TITLE_LENGTH : Nat := 30

/-- SEO threshold: maximum title length (`SEOAnalyzer.MAX_TITLE_LENGTH`). -/
def MAX_TITLE_LENGTH : Nat := 60

/-- SEO threshold: minimum meta-description length
(`SEOAnalyzer.MIN_META_DESC_LENGTH`). -/
def MIN_META_DESC_LENGTH : Nat := 120

/-- SEO threshold: maximum meta-description length
(`SEOAnalyzer.MAX_META_DESC_LENGTH`). -/
def MAX_META_DESC_LENGTH : Nat := 160

/-- `SEOAnalyzer._extract_title`: stripped text of the first `<title>`
element, `""` when absent. -/
def extract_title (doc : List Node) : String :=
  match (Forest.findAll (fun n => n.tagIs "title") doc).head? with
  | some t => getTextStrip t
  | none => ""

/-- `SEOAnalyzer._extract_meta_description`: the stripped `content` attribute
of the first `<meta name="description">`, falling back to
`<meta property="og:description">`, `""` when both are absent. -/
def extract_meta_description (doc : List Node) : String :=
  match (Forest.findAll
      (fun n => n.tagIs "meta" && (n.getAttr "name" == some "description")) doc).head? with
  | some m => strTrim ((m.getAttr "content").getD "")
  | none =>
      match (Forest.findAll
          (fun n => n.tagIs "meta" && (n.getAttr "property" == some "og:description")) doc).head? with
      | some m => strTrim ((m.getAttr "content").getD "")
      | none => ""

/-- `SEOAnalyzer._check_noindex`: the first `<meta name="robots">` tag's
`content` attribute, lowered, contains the substring `noindex`. -/
def check_noindex (doc : List Node) : Bool :=
  match (Forest.findAll
      (fun n => n.tagIs "meta" && (n.getAttr "name" == some "robots")) doc).head? with
  | some m => containsSub (strLower ((m.getAttr "content").getD "")) "noindex"
  | none => false

/-- Whether a node matches `soup.find('link', rel='canonical')`: a `<link>`
whose (multi-valued) `rel` attribute contains the token `canonical`. -/
def relCanonical (n : Node) : Bool :=
  n.tagIs "link" &&
    (splitWords ((n.getAttr "rel").getD "")).contains "canonical"

/-- `SEOAnalyzer._detect_issues`: issue codes appended in the fixed order
title / meta description / h1 / canonical / noindex / status. -/
def detect_issues (title_length meta_desc_length h1_count : Nat)
    (canonical_present noindex : Bool) (status_code : Nat) : List String :=
  (if title_length == 0 then ["MISSING_TITLE"]
   else if title_length < MIN_TITLE_LENGTH then ["TITLE_TOO_SHORT"]
   else if title_length > MAX_TITLE_LENGTH then ["TITLE_TOO_LONG"]
   else []) ++
  (if meta_desc_length == 0 then ["MISSING_META_DESCRIPTION"]
   else if meta_desc_length < MIN_META_DESC_LENGTH then ["META_DESCRIPTION_TOO_SHORT"]
   else if meta_desc_length > MAX_META_DESC_LENGTH then ["META_DESCRIPTION_TOO_LONG"]
   else []) ++
  (if h1_count == 0 then ["MISSING_H1"]
   else if h1_count > 1 then ["MULTIPLE_H1_TAGS"]
   else []) ++
  (if !canonical_present then ["MISSING_CANONICAL"] else []) ++
  (if noindex then ["NOINDEX_PRESENT"] else []) ++
  (if status_code != 200 then ["HTTP_" ++ toString status_code] else [])

/-- The analysis record returned by `SEOAnalyzer.analyze_page`.  The Python
short-circuit branch returns a dict without the `title`, `meta_description`,
`h1_tags` and `canonical_url` keys; those fields carry their empty defaults
here. -/
structure PageAnalysis where
  url : String
  status_code : Nat
  title : String
  title_length : Nat
  meta_description : String
  meta_description_length : Nat
  h1_count : Nat
  h1_tags : List String
  canonical_present : Bool
  canonical_url : Option String
  noindex : Bool
  page_size_kb : ℚ
  internal_links : Nat
  issues : List String

/-- `SEOAnalyzer.analyze_page`: short-circuit on an empty body or a status
other than 200, otherwise extract the SEO fields and run the issue
detection. -/
def analyze_page (p : PageData) : PageAnalysis :=
  if p.html.isEmpty || p.status_code != 200 then
    { url := p.url, status_code := p.status_code,
      title := "", title_length := 0,
      meta_description := "", meta_description_length := 0,
      h1_count := 0, h1_tags := [],
      canonical_present := false, canonical_url := none, noindex := false,
      page_size_kb := p.page_size_kb, internal_links := p.internal_links,
      issues := if p.status_code != 200 then ["PAGE_NOT_ACCESSIBLE"] else ["NO_HTML_CONTENT"] }
  else
    let title := extract_title p.html
    let meta_description := extract_meta_description p.html
    let h1_tags := Forest.findAll (fun n => n.tagIs "h1") p.html
    let canonical := (Forest.findAll relCanonical p.html).head?
    let noindex := check_noindex p.html
    let title_length := title.length
    let meta_desc_length := meta_description.length
    let h1_count := h1_tags.length
    let canonical_present := canonical.isSome
    { url := p.url, status_code := p.status_code,
      title := title, title_length := title_length,
      meta_description := meta_description, meta_description_length := meta_desc_length,
      h1_count := h1_count, h1_tags := h1_tags.map getTextStrip,
      canonical_present := canonical_present,
      canonical_url := canonical.bind (fun n => n.getAttr "href"),
      noindex := noindex,
      page_size_kb := p.page_size_kb, internal_links := p.internal_links,
      issues := detect_issues title_length meta_desc_length h1_count
        canonical_present noindex p.status_code }

/-- The five counters of `calculate_summary` in `main.py`. -/
structure AuditSummary where
  missing_title : Nat
  missing_meta_description : Nat
  multiple_h1 : Nat
  noindex_pages : Nat
  non_200_pages : Nat

/-- One iteration of the `calculate_summary` loop: each predicate increments
its counter independently. -/
def summaryStep (s : AuditSummary) (p : PageAnalysis) : AuditSummary :=
  { missing_title := s.missing_title + (if p.title_length == 0 then 1 else 0),
    missing_meta_description :=
      s.missing_meta_description + (if p.meta_description_length == 0 then 1 else 0),
    multiple_h1 := s.multiple_h1 + (if p.h1_count > 1 then 1 else 0),
    noindex_pages := s.noindex_pages + (if p.noindex then 1 else 0),
    non_200_pages := s.non_200_pages + (if p.status_code != 200 then 1 else 0) }

/-- `calculate_summary` from `main.py`: scan the analyses once, all counters
starting at zero. -/
def calculate_summary (results : List PageAnalysis) : AuditSummary :=
  results.foldl summaryStep ⟨0, 0, 0, 0, 0⟩

/-- The payload persisted by `run_audit` on success. -/
structure AuditResults where
  url : String
  pages_crawled : Nat
  summary : AuditSummary
  pages : List PageAnalysis
  completed_at : String

/-- One audit record of `AuditDatabase` (`database.py`).  `updated_at` is
`none` until a mutating operation first touches the record. -/
structure AuditRecord where
  audit_id : String
  url : String
  status : String
  created_at : String
  updated_at : Option String
  results : Option AuditResults
  error : Option String

/-- The in-memory store `AuditDatabase`: an insertion-ordered mapping from
audit id to record (the single-threaded view; the Python lock serializes
access). -/
structure AuditDatabase where
  audits : List (String × AuditRecord)

/-- The fresh record built by `AuditDatabase.create_audit`. -/
def newAuditRecord (audit_id url now : String) : AuditRecord :=
  { audit_id := audit_id, url := url, status := "pending", created_at := now,
    updated_at := none, results := none, error := none }

/-- `AuditDatabase.create_audit`: dict assignment — overwrite when the id is
present, append otherwise.  `now` stands for `datetime.utcnow().isoformat()`. -/
def create_audit (db : AuditDatabase) (audit_id url now : String) : AuditDatabase :=
  if (db.audits.lookup audit_id).isSome then
    { audits := db.audits.map
        (fun kv => if kv.1 = audit_id then (kv.1, newAuditRecord audit_id url now) else kv) }
  else
    { audits := db.audits ++ [(audit_id, newAuditRecord audit_id url now)] }

/-- `AuditDatabase.update_status`: guarded by `if audit_id in self.audits`;
silently does nothing for an unknown id. -/
def update_status (db : AuditDatabase) (audit_id status now : String) : AuditDatabase :=
  if (db.audits.lookup audit_id).isSome then
    { audits := db.audits.map
        (fun kv =>
          if kv.1 = audit_id then
            (kv.1, { kv.2 with status := status, updated_at := some now })
          else kv) }
  else db

/-- `AuditDatabase.save_results`: guarded by `if audit_id in self.audits`;
silently does nothing for an unknown id. -/
def save_results (db : AuditDatabase) (audit_id : String) (results : AuditResults)
    (now : String) : AuditDatabase :=
  if (db.audits.lookup audit_id).isSome then
    { audits := db.audits.map
        (fun kv =>
          if kv.1 = audit_id then
            (kv.1, { kv.2 with results := some results, updated_at := some now })
          else kv) }
  else db

/-- `AuditDatabase.save_error`: guarded by `if audit_id in self.audits`;
silently does nothing for an unknown id. -/
def save_error (db : AuditDatabase) (audit_id e now : String) : AuditDatabase :=
  if (db.audits.lookup audit_id).isSome then
    { audits := db.audits.map
        (fun kv =>
          if kv.1 = audit_id then
            (kv.1, { kv.2 with error := some e, updated_at := some now })
          else kv) }
  else db

/-- `AuditDatabase.get_audit`: `self.audits.get(audit_id)`. -/
def get_audit (db : AuditDatabase) (audit_id : String) : Option AuditRecord :=
  db.audits.lookup audit_id

/-! ### Concrete fixtures used by counterexamples and witnesses -/

/-- A document whose only navigation marker is an `id` attribute: a `div` with
`id="nav"` containing one in-domain link, no `nav`/`header`/`ul` elements and
no `class` attributes. -/
def docC6 : List Node :=
  [Node.elem "div" [("id", "nav")] [Node.elem "a" [("href", "/x")] [Node.text "x"]]]

/-- A 200-status page with title `Home`, no meta description, two `h1`
elements, no canonical link and no robots meta. -/
def docC8 : List Node :=
  [Node.elem "html" [] [
    Node.elem "head" [] [Node.elem "title" [] [Node.text "Home"]],
    Node.elem "body" [] [
      Node.elem "h1" [] [Node.text "Welcome"],
      Node.elem "h1" [] [Node.text "Again"]]]]

/-- The page record for the `docC8` scenario. -/
def pageC8 : PageData :=
  { url := "https://example.com", status_code := 200, html := docC8,
    headers := [], page_size_kb := 1, internal_links := 0, error := none }

/-- A 404 record that kept a non-empty body and non-zero size and link
counts (a 404 response with content). -/
def pageC4 : PageData :=
  { url := "https://example.com/missing", status_code := 404,
    html := [Node.text "gone"], headers := [], page_size_kb := 5,
    internal_links := 3, error := none }

/-- A record built directly with a non-200 status and a non-empty body (the
callers the spec's `HTTP_<status>` note is about). -/
def pageC5 : PageData :=
  { url := "https://example.com/err", status_code := 404,
    html := [Node.elem "title" [] [Node.text "Server error page"]],
    headers := [], page_size_kb := 2, internal_links := 1, error := none }

/-- An empty-body transport-failure record (status 0). -/
def pageC1 : PageData :=
  { url := "https://example.com/down", status_code := 0, html := [],
    headers := [], page_size_kb := 0, internal_links := 0, error := none }

/-- Homepage document of the partial-failure scenario: one navigation link to
`https://a.com/p`. -/
def homeDocC2 : List Node :=
  [Node.elem "nav" [] [Node.elem "a" [("href", "https://a.com/p")] [Node.text "p"]]]

/-- Homepage response of the partial-failure scenario. -/
def homeRespC2 : Response :=
  { status_code := 200, text := homeDocC2, headers := [], content := 50 }

/-- A successful response for the page that fails in the other world. -/
def pRespC2 : Response :=
  { status_code := 200, text := [Node.elem "p" [] [Node.text "ok"]],
    headers := [], content := 10 }

/-- Network of the partial-failure scenario: `https://a.com/p` times out,
every other URL serves the homepage. -/
def oC2 : Network := fun u =>
  if u == "https://a.com/p" then .error "timeout" else .ok homeRespC2

/-- The same network with the failing page healed. -/
def oC2ok : Network := fun u =>
  if u == "https://a.com/p" then .ok pRespC2 else oC2 u

/-- The 404 response returned for every URL by `o404`. -/
def resp404 : Response :=
  { status_code := 404, text := [Node.text "err"], headers := [], content := 3 }

/-- A network whose every URL answers HTTP 404 with a non-empty body. -/
def o404 : Network := fun _ => .ok resp404

/-- A document with one same-host and one off-host navigation link. -/
def docC7 : List Node :=
  [Node.elem "nav" [] [
    Node.elem "a" [("href", "/about")] [Node.text "About"],
    Node.elem "a" [("href", "https://other.com/x")] [Node.text "Other"]]]

/-- A store holding exactly one audit record, id `a1`. -/
def dbC10 : AuditDatabase :=
  { audits := [("a1", newAuditRecord "a1" "https://example.com" "t0")] }

/-- A results payload for the C10 witness. -/
def resultsC10 : AuditResults :=
  { url := "https://example.com", pages_crawled := 0,
    summary := ⟨0, 0, 0, 0, 0⟩, pages := [], completed_at := "t1" }

/-! ### Helper lemmas -/

/-- `takeWhile` is idempotent. -/
theorem takeWhile_idem (p : Char → Bool) (l : List Char) :
    (l.takeWhile p).takeWhile p = l.takeWhile p := by
  induction l with
  | nil => rfl
  | cons c cs ih =>
      by_cases h : p c
      · simp [List.takeWhile_cons, h, ih]
      · simp [List.takeWhile_cons, h]

/-- Stripping the fragment of a URL does not change its netloc. -/
theorem netloc_stripFragment (u : String) : netloc (stripFragment u) = netloc u := by
  unfold netloc stripFragment
  simp [takeWhile_idem]

/-- Membership after a set insertion. -/
theorem mem_insertURL {l : List String} {v u : String} (h : u ∈ insertURL l v) :
    u ∈ l ∨ u = v := by
  unfold insertURL at h
  by_cases hv : v ∈ l
  · rw [if_pos hv] at h; exact Or.inl h
  · rw [if_neg hv] at h
    rcases List.mem_append.1 h with h' | h'
    · exact Or.inl h'
    · exact Or.inr (List.mem_singleton.1 h')

/-- Set insertion preserves freedom from duplicates. -/
theorem insertURL_nodup {l : List String} (v : String) (h : l.Nodup) :
    (insertURL l v).Nodup := by
  unfold insertURL
  by_cases hv : v ∈ l
  · rw [if_pos hv]; exact h
  · rw [if_neg hv]
    refine List.Nodup.append h (List.nodup_singleton v) ?_
    intro a ha ha'
    exact hv (List.mem_singleton.1 ha' ▸ ha)

/-- Set insertion never yields the empty list. -/
theorem insertURL_ne_nil (l : List String) (v : String) : insertURL l v ≠ [] := by
  unfold insertURL
  by_cases hv : v ∈ l
  · rw [if_pos hv]; exact List.ne_nil_of_mem hv
  · rw [if_neg hv]; simp

/-- A fold whose step only ever adds elements satisfying `P` keeps every new
member inside `P`. -/
theorem foldl_mem_or {β : Type} (step : List String → β → List String)
    (P : String → Prop)
    (hstep : ∀ acc b u, u ∈ step acc b → u ∈ acc ∨ P u) :
    ∀ (l : List β) (acc : List String) (u : String),
      u ∈ l.foldl step acc → u ∈ acc ∨ P u := by
  intro l
  induction l with
  | nil => intro acc u h; exact Or.inl h
  | cons b bs ih =>
      intro acc u h
      rcases ih (step acc b) u h with h' | h'
      · exact hstep acc b u h'
      · exact Or.inr h'

/-- A fold whose step preserves `Nodup` preserves `Nodup`. -/
theorem foldl_nodup {β : Type} (step : List String → β → List String)
    (hstep : ∀ acc b, acc.Nodup → (step acc b).Nodup) :
    ∀ (l : List β) (acc : List String), acc.Nodup → (l.foldl step acc).Nodup := by
  intro l
  induction l with
  | nil => intro acc h; exact h
  | cons b bs ih => intro acc h; exact ih _ (hstep acc b h)

/-- Anything `addNavLink` adds has the base URL's netloc. -/
theorem addNavLink_mem {base : String} {acc : List String} {href u : String}
    (h : u ∈ addNavLink base acc href) : u ∈ acc ∨ netloc u = netloc base := by
  unfold addNavLink at h
  by_cases hs : is_same_domain (urljoin base href) base = true
  · rw [if_pos hs] at h
    by_cases hne : stripFragment (urljoin base href) ≠ ""
    · rw [if_pos hne] at h
      rcases mem_insertURL h with h' | h'
      · exact Or.inl h'
      · right
        rw [h', netloc_stripFragment]
        exact beq_iff_eq.1 hs
    · rw [if_neg hne] at h; exact Or.inl h
  · rw [if_neg hs] at h; exact Or.inl h

/-- `addNavLink` preserves freedom from duplicates. -/
theorem addNavLink_nodup (base : String) (acc : List String) (href : String)
    (h : acc.Nodup) : (addNavLink base acc href).Nodup := by
  unfold addNavLink
  by_cases hs : is_same_domain (urljoin base href) base = true
  · rw [if_pos hs]
    by_cases hne : stripFragment (urljoin base href) ≠ ""
    · rw [if_pos hne]; exact insertURL_nodup _ h
    · rw [if_neg hne]; exact h
  · rw [if_neg hs]; exact h

/-- Every extracted navigation link shares the base URL's netloc. -/
theorem extract_mem_netloc {doc : List Node} {base u : String}
    (h : u ∈ extract_navigation_links doc base) : netloc u = netloc base := by
  unfold extract_navigation_links at h
  have houter := foldl_mem_or
    (fun acc nel => (elemHrefs nel).foldl (addNavLink base) acc)
    (fun u => netloc u = netloc base)
    (fun acc nel v hv =>
      foldl_mem_or (addNavLink base) (fun u => netloc u = netloc base)
        (fun acc' href' u' hu' => addNavLink_mem hu') (elemHrefs nel) acc v hv)
    _ [] u h
  rcases houter with h' | h'
  · cases h'
  · exact h'

/-- The extracted navigation link set is duplicate-free. -/
theorem extract_nodup (doc : List Node) (base : String) :
    (extract_navigation_links doc base).Nodup := by
  unfold extract_navigation_links
  exact foldl_nodup _
    (fun acc nel h =>
      foldl_nodup (addNavLink base) (fun acc' href' h' => addNavLink_nodup base acc' href' h')
        (elemHrefs nel) acc h)
    _ [] List.nodup_nil

/-- The URL list the crawler fans out over is duplicate-free. -/
theorem nav_link_list_nodup (o : Network) (s : String) : (nav_link_list o s).Nodup := by
  unfold nav_link_list
  cases fetch_page o s with
  | none => exact List.nodup_nil
  | some doc =>
      dsimp only
      by_cases hd : doc.isEmpty = true
      · rw [if_pos hd]; exact List.nodup_nil
      · rw [if_neg hd]; exact insertURL_nodup _ (extract_nodup doc (base_domain_of s))

/-- `find_all` distributes over forest concatenation. -/
theorem findAll_append (p : Node → Bool) (l₁ l₂ : List Node) :
    Forest.findAll p (l₁ ++ l₂) = Forest.findAll p l₁ ++ Forest.findAll p l₂ := by
  induction l₁ with
  | nil => rfl
  | cons n ns ih => simp [Forest.findAll, ih]

/-- Appending a bare `<a href=…>` node to a document appends exactly its href
to the document's href list. -/
theorem docHrefs_append_a (doc : List Node) (h : String) :
    docHrefs (doc ++ [Node.elem "a" [("href", h)] []]) = docHrefs doc ++ [h] := by
  unfold docHrefs
  rw [findAll_append, List.filterMap_append]
  simp [Forest.findAll, Node.findAll, Node.tagIs, Node.tagName, Node.hasAttr,
    Node.getAttr, List.lookup]

/-- A link resolving to a different host contributes nothing to the
internal-link count. -/
theorem countInternal_off_host (doc : List Node) (url base h : String)
    (hh : is_same_domain (urljoin url h) base = false) :
    countInternalLinks (doc ++ [Node.elem "a" [("href", h)] []]) url base =
      countInternalLinks doc url base := by
  unfold countInternalLinks
  rw [docHrefs_append_a, List.foldl_append]
  simp [hh]

/-- The record `_crawl_page` returns always carries the URL it was given. -/
theorem crawl_page_url (o : Network) (u b : String) : (crawl_page o u b).url = u := by
  unfold crawl_page
  cases o u with
  | ok r => rfl
  | error e => rfl

/-- `_crawl_page` looks at the network only at its own URL. -/
theorem crawl_page_congr {o o' : Network} (u b : String) (h : o u = o' u) :
    crawl_page o u b = crawl_page o' u b := by
  unfold crawl_page
  rw [h]

/-- `_fetch_page` looks at the network only at its own URL. -/
theorem fetch_page_congr {o o' : Network} (u : String) (h : o u = o' u) :
    fetch_page o u = fetch_page o' u := by
  unfold fetch_page
  rw [h]

/-- Closed form of the `calculate_summary` fold: each counter is the count of
its predicate, shifted by the accumulator. -/
theorem summary_foldl_spec (l : List PageAnalysis) : ∀ s : AuditSummary,
    (l.foldl summaryStep s).missing_title =
      s.missing_title + l.countP (fun p => p.title_length == 0) ∧
    (l.foldl summaryStep s).missing_meta_description =
      s.missing_meta_description + l.countP (fun p => p.meta_description_length == 0) ∧
    (l.foldl summaryStep s).multiple_h1 =
      s.multiple_h1 + l.countP (fun p => decide (p.h1_count > 1)) ∧
    (l.foldl summaryStep s).noindex_pages =
      s.noindex_pages + l.countP (fun p => p.noindex) ∧
    (l.foldl summaryStep s).non_200_pages =
      s.non_200_pages + l.countP (fun p => p.status_code != 200) := by
  induction l with
  | nil => intro s; simp
  | cons p ps ih =>
      intro s
      have h := ih (summaryStep s p)
      refine ⟨?_, ?_, ?_, ?_, ?_⟩
      · rw [List.foldl_cons, h.1, List.countP_cons]
        unfold summaryStep
        by_cases hp : p.title_length == 0 <;> simp [hp] <;> omega
      · rw [List.foldl_cons, h.2.1, List.countP_cons]
        unfold summaryStep
        by_cases hp : p.meta_description_length == 0 <;> simp [hp] <;> omega
      · rw [List.foldl_cons, h.2.2.1, List.countP_cons]
        unfold summaryStep
        by_cases hp : p.h1_count > 1 <;> simp [hp] <;> omega
      · rw [List.foldl_cons, h.2.2.2.1, List.countP_cons]
        unfold summaryStep
        by_cases hp : p.noindex <;> simp [hp] <;> omega
      · rw [List.foldl_cons, h.2.2.2.2, List.countP_cons]
        unfold summaryStep
        by_cases hp : p.status_code != 200 <;> simp [hp] <;> omega

/-! ### Claim theorems -/

/-- C1: for every page record whose html body is empty or whose status code is
not 200, `analyze_page` returns an analysis whose issues list contains exactly
one code: `PAGE_NOT_ACCESSIBLE` when the status code is not 200, and
`NO_HTML_CONTENT` when the status code is 200 but the body is empty. -/
theorem analyze_page_short_circuit (p : PageData)
    (hp : p.html = [] ∨ p.status_code ≠ 200) :
    (analyze_page p).issues =
      (if p.status_code ≠ 200 then ["PAGE_NOT_ACCESSIBLE"] else ["NO_HTML_CONTENT"]) ∧
    (analyze_page p).issues.length = 1 := by
  have hg : (p.html.isEmpty || p.status_code != 200) = true := by
    rcases hp with h | h
    · simp [h]
    · simp [bne_iff_ne.mpr h]
  constructor
  · unfold analyze_page
    rw [if_pos hg]
    by_cases hs : p.status_code = 200
    · simp [hs]
    · simp [hs, bne_iff_ne.mpr hs]
  · unfold analyze_page
    rw [if_pos hg]
    by_cases hs : p.status_code = 200
    · simp [hs]
    · simp [bne_iff_ne.mpr hs]

/-- C1 witness: a status-0 empty-body record yields exactly
`["PAGE_NOT_ACCESSIBLE"]`. -/
theorem analyze_page_short_circuit_witness :
    (analyze_page pageC1).issues = ["PAGE_NOT_ACCESSIBLE"] ∧
    (analyze_page pageC1).issues.length = 1 := by
  have h := analyze_page_short_circuit pageC1 (Or.inl rfl)
  rw [if_pos (by decide)] at h
  exact h

/-- C4 (amended): on the short-circuit branch the analysis-derived numeric
fields (`title_length`, `meta_description_length`, `h1_count`) are zero and the
booleans false, while `page_size_kb` and `internal_links` are copied unchanged
from the input record rather than zeroed. -/
theorem analyze_page_minimal_fields (p : PageData)
    (hp : p.html = [] ∨ p.status_code ≠ 200) :
    (analyze_page p).title_length = 0 ∧
    (analyze_page p).meta_description_length = 0 ∧
    (analyze_page p).h1_count = 0 ∧
    (analyze_page p).canonical_present = false ∧
    (analyze_page p).noindex = false ∧
    (analyze_page p).page_size_kb = p.page_size_kb ∧
    (analyze_page p).internal_links = p.internal_links := by
  have hg : (p.html.isEmpty || p.status_code != 200) = true := by
    rcases hp with h | h
    · simp [h]
    · simp [bne_iff_ne.mpr h]
  unfold analyze_page
  rw [if_pos hg]
  exact ⟨rfl, rfl, rfl, rfl, rfl, rfl, rfl⟩

/-- C4 counterexample: a 404 record with a body and non-zero size and
link counts takes the short-circuit branch yet keeps `page_size_kb = 5` and
`internal_links = 3` in the returned minimal analysis — the claim's "all
numeric fields are zero" is false. -/
theorem analyze_page_minimal_fields_counterexample :
    (analyze_page pageC4).issues = ["PAGE_NOT_ACCESSIBLE"] ∧
    (analyze_page pageC4).page_size_kb = 5 ∧
    (analyze_page pageC4).internal_links = 3 ∧
    (analyze_page pageC4).internal_links ≠ 0 ∧
    (analyze_page pageC4).page_size_kb ≠ 0 := by
  refine ⟨rfl, rfl, rfl, by decide, by decide⟩

/-- C4 witness: the amended passthrough at the same 404-with-content
record. -/
theorem analyze_page_minimal_fields_witness :
    (analyze_page pageC4).title_length = 0 ∧
    (analyze_page pageC4).meta_description_length = 0 ∧
    (analyze_page pageC4).h1_count = 0 ∧
    (analyze_page pageC4).canonical_present = false ∧
    (analyze_page pageC4).noindex = false ∧
    (analyze_page pageC4).page_size_kb = pageC4.page_size_kb ∧
    (analyze_page pageC4).internal_links = pageC4.internal_links :=
  analyze_page_minimal_fields pageC4 (Or.inr (by decide))

/-- C5 (amended): the `HTTP_<status>` branch is preserved in `_detect_issues`
— any call with a status other than 200 appends `HTTP_<status>` — but
`analyze_page` never reaches it: a record with a non-200 status short-circuits
to exactly `["PAGE_NOT_ACCESSIBLE"]` even when its body is non-empty. -/
theorem detect_issues_http_branch (tl ml h1 : Nat) (c n : Bool) (s : Nat)
    (hs : s ≠ 200) (p : PageData) (hp : p.status_code ≠ 200)
    (hb : p.html.isEmpty = false) :
    ("HTTP_" ++ toString s) ∈ detect_issues tl ml h1 c n s ∧
    (analyze_page p).issues = ["PAGE_NOT_ACCESSIBLE"] := by
  constructor
  · unfold detect_issues
    have hmem : ("HTTP_" ++ toString s) ∈
        (if s != 200 then ["HTTP_" ++ toString s] else []) := by
      rw [if_pos (bne_iff_ne.mpr hs)]
      exact List.mem_singleton.2 rfl
    exact List.mem_append_right _ hmem
  · have hg : (p.html.isEmpty || p.status_code != 200) = true := by
      simp [bne_iff_ne.mpr hp]
    unfold analyze_page
    rw [if_pos hg, if_pos (bne_iff_ne.mpr hp)]

/-- C5 counterexample: a record built directly with status 404 and a
non-empty body gets `["PAGE_NOT_ACCESSIBLE"]` from `analyze_page`; `HTTP_404`
is not in its issues, so the claim that `analyze_page`'s result includes
`HTTP_<status>` for such callers is false. -/
theorem detect_issues_http_branch_counterexample :
    pageC5.status_code = 404 ∧
    pageC5.html.isEmpty = false ∧
    (analyze_page pageC5).issues = ["PAGE_NOT_ACCESSIBLE"] ∧
    "HTTP_404" ∉ (analyze_page pageC5).issues := by
  exact ⟨rfl, rfl, rfl, by decide⟩

/-- C5 witness: the amended statement at status 404 and the concrete
404-with-body record. -/
theorem detect_issues_http_branch_witness :
    ("HTTP_" ++ toString 404) ∈ detect_issues 0 0 0 false false 404 ∧
    (analyze_page pageC5).issues = ["PAGE_NOT_ACCESSIBLE"] :=
  detect_issues_http_branch 0 0 0 false false 404 (by decide) pageC5 (by decide) rfl

/-- C8 counterexample: the spec scenario page (title `Home`, 4 characters,
status 200, no meta description, two h1, no canonical, no robots) does not
produce `MISSING_TITLE` — its issues differ from the claimed list. -/
theorem analyze_page_home_scenario_counterexample :
    (analyze_page pageC8).title = "Home" ∧
    (analyze_page pageC8).title_length = 4 ∧
    (analyze_page pageC8).issues ≠
      ["MISSING_TITLE", "MISSING_META_DESCRIPTION", "MULTIPLE_H1_TAGS", "MISSING_CANONICAL"] := by
  refine ⟨by decide, by decide, by decide⟩

/-- C8 (amended): the scenario page's issues are
`["TITLE_TOO_SHORT", "MISSING_META_DESCRIPTION", "MULTIPLE_H1_TAGS",
"MISSING_CANONICAL"]` in that order — a 4-character title falls in the
too-short branch, not the missing branch. -/
theorem analyze_page_home_scenario_amended :
    (analyze_page pageC8).status_code = 200 ∧
    (analyze_page pageC8).title_length = 4 ∧
    (analyze_page pageC8).meta_description_length = 0 ∧
    (analyze_page pageC8).h1_count = 2 ∧
    (analyze_page pageC8).canonical_present = false ∧
    (analyze_page pageC8).noindex = false ∧
    (analyze_page pageC8).issues =
      ["TITLE_TOO_SHORT", "MISSING_META_DESCRIPTION", "MULTIPLE_H1_TAGS", "MISSING_CANONICAL"] := by
  refine ⟨by decide, by decide, by decide, by decide, by decide, by decide, by decide⟩

/-- C6: a document whose only navigation marker is `id="nav"` (no `nav` or
`header` tags, no matching `class`, no `ul`) yields an empty extracted link
set — the strategy-3 filter inspects only the `class` attribute, contradicting
the code's own "classes/IDs" comment and the spec, so the in-domain link
`https://example.com/x` inside the container is not discovered. -/
theorem extract_id_only_container_ignored :
    extract_navigation_links docC6 "https://example.com" = [] ∧
    "https://example.com/x" ∉ extract_navigation_links docC6 "https://example.com" := by
  exact ⟨by decide, by decide⟩

/-- C3 counterexample: a homepage answering HTTP 404 with a non-empty body is
not a transport failure, yet `_fetch_page` discards the real status and body
(returns `None`) and `crawl_navigation` short-circuits to the empty sequence
instead of proceeding. -/
theorem crawl_navigation_http_error_counterexample :
    o404 "https://e.com" = Except.ok resp404 ∧
    resp404.status_code = 404 ∧
    resp404.text.isEmpty = false ∧
    fetch_page o404 "https://e.com" = none ∧
    crawl_navigation o404 "https://e.com" = [] := by
  exact ⟨rfl, rfl, rfl, rfl, rfl⟩

/-- C3 (amended): `crawl_navigation` returns the empty sequence exactly when
the homepage fetch yields no usable HTML — on transport failure, on any
non-200 HTTP status (where `_fetch_page` returns `None` rather than the real
body), or on a 200 response with an empty body. -/
theorem crawl_navigation_empty_iff (o : Network) (start : String) :
    crawl_navigation o start = [] ↔
      (fetch_page o start = none ∨ fetch_page o start = some []) := by
  unfold crawl_navigation nav_link_list
  cases hf : fetch_page o start with
  | none => simp
  | some doc =>
      dsimp only
      cases hd : doc.isEmpty with
      | true =>
          have : doc = [] := List.isEmpty_iff.1 hd
          subst this
          simp
      | false =>
          rw [if_neg (by simp [hd])]
          constructor
          · intro hmap
            exact absurd (List.map_eq_nil_iff.1 hmap)
              (insertURL_ne_nil (extract_navigation_links doc (base_domain_of start)) start)
          · rintro (h | h)
            · cases h
            · have : doc = [] := by injection h
              subst this
              simp at hd

/-- C9: every counter of `calculate_summary` is bounded by the number of
analyses, and `non_200_pages` is exactly the number of analyses whose status
code is not 200. -/
theorem calculate_summary_counters (results : List PageAnalysis) :
    (calculate_summary results).missing_title ≤ results.length ∧
    (calculate_summary results).missing_meta_description ≤ results.length ∧
    (calculate_summary results).multiple_h1 ≤ results.length ∧
    (calculate_summary results).noindex_pages ≤ results.length ∧
    (calculate_summary results).non_200_pages ≤ results.length ∧
    (calculate_summary results).non_200_pages =
      results.countP (fun p => p.status_code != 200) := by
  have h := summary_foldl_spec results ⟨0, 0, 0, 0, 0⟩
  unfold calculate_summary
  refine ⟨?_, ?_, ?_, ?_, ?_, ?_⟩
  · rw [h.1]; simpa using List.countP_le_length _
  · rw [h.2.1]; simpa using List.countP_le_length _
  · rw [h.2.2.1]; simpa using List.countP_le_length _
  · rw [h.2.2.2.1]; simpa using List.countP_le_length _
  · rw [h.2.2.2.2]; simpa using List.countP_le_length _
  · rw [h.2.2.2.2]; simp

/-- C10: the mutating store operations are silent no-ops for an id that is not
in the store, and `get_audit` returns `none` for it. -/
theorem audit_db_missing_id_noop (db : AuditDatabase) (id status now e : String)
    (r : AuditResults) (h : db.audits.lookup id = none) :
    update_status db id status now = db ∧
    save_results db id r now = db ∧
    save_error db id e now = db ∧
    get_audit db id = none := by
  refine ⟨?_, ?_, ?_, h⟩
  · unfold update_status
    rw [h]
    rfl
  · unfold save_results
    rw [h]
    rfl
  · unfold save_error
    rw [h]
    rfl

/-- C10 witness: a one-record store is untouched by updates addressed to the
absent id `ghost`. -/
theorem audit_db_missing_id_noop_witness :
    update_status dbC10 "ghost" "crawling" "t2" = dbC10 ∧
    save_results dbC10 "ghost" resultsC10 "t2" = dbC10 ∧
    save_error dbC10 "ghost" "boom" "t2" = dbC10 ∧
    get_audit dbC10 "ghost" = none :=
  audit_db_missing_id_noop dbC10 "ghost" "crawling" "t2" "boom" resultsC10 rfl

/-- C7: every link in the extracted navigation set has the base URL's host,
so a hyperlink whose resolved host differs never appears there; and appending
to a document a link whose resolved host differs from the base host leaves the
crawler's internal-link count unchanged. -/
theorem nav_links_same_domain_only (doc : List Node) (base url h : String)
    (hh : netloc (urljoin url h) ≠ netloc base) :
    (∀ u ∈ extract_navigation_links doc base, netloc u = netloc base) ∧
    countInternalLinks (doc ++ [Node.elem "a" [("href", h)] []]) url base =
      countInternalLinks doc url base := by
  constructor
  · intro u hu
    exact extract_mem_netloc hu
  · exact countInternal_off_host doc url base h
      (by unfold is_same_domain; exact beq_eq_false_iff_ne.mpr hh)

/-- C7 witness: with base `https://example.com`, the off-host link
`https://other.com/x` is absent from the extracted set of a document that
lists it, and appending it to the document does not change the internal-link
count. -/
theorem nav_links_same_domain_only_witness :
    "https://other.com/x" ∉ extract_navigation_links docC7 "https://example.com" ∧
    countInternalLinks (docC7 ++ [Node.elem "a" [("href", "https://other.com/x")] []])
        "https://example.com" "https://example.com" =
      countInternalLinks docC7 "https://example.com" "https://example.com" := by
  have h := nav_links_same_domain_only docC7 "https://example.com" "https://example.com"
    "https://other.com/x" (by decide)
  exact ⟨fun hmem => absurd (h.1 _ hmem) (by decide), h.2⟩

/-- C2: when one navigation link's fetch (or the work on its response) fails
while everything else is unchanged, that page appears exactly once in the
crawl output, as the status-0 / empty-body / zero-count failure record; every
other page's record is exactly what it would have been without the failure;
and analyzing the failure record yields the single issue
`PAGE_NOT_ACCESSIBLE`. -/
theorem crawl_navigation_partial_failure (o o' : Network) (start u e : String)
    (hne : u ≠ start) (hfail : o u = .error e)
    (hagree : ∀ v, v ≠ u → o v = o' v)
    (hmem : u ∈ nav_link_list o start) :
    (crawl_navigation o start).countP (fun p => p.url == u) = 1 ∧
    failedRecord u e ∈ crawl_navigation o start ∧
    crawl_navigation o' start =
      (crawl_navigation o start).map
        (fun p => if p.url = u then crawl_page o' u (base_domain_of start) else p) ∧
    (analyze_page (failedRecord u e)).issues = ["PAGE_NOT_ACCESSIBLE"] := by
  have hnodup := nav_link_list_nodup o start
  refine ⟨?_, ?_, ?_, ?_⟩
  · unfold crawl_navigation
    rw [List.countP_map]
    have hcomp : ((fun p => p.url == u) ∘ fun v => crawl_page o v (base_domain_of start))
        = (fun v => v == u) := by
      funext v
      simp [Function.comp, crawl_page_url]
    rw [hcomp, ← List.count_eq_countP]
    exact List.count_eq_one_of_mem hnodup hmem
  · unfold crawl_navigation
    have hrec : crawl_page o u (base_domain_of start) = failedRecord u e := by
      unfold crawl_page
      rw [hfail]
    rw [← hrec]
    exact List.mem_map_of_mem _ hmem
  · have hstart : o' start = o start := (hagree start (Ne.symm hne)).symm
    have hN : nav_link_list o' start = nav_link_list o start := by
      unfold nav_link_list
      rw [fetch_page_congr start hstart]
    unfold crawl_navigation
    rw [hN, List.map_map]
    apply List.map_congr_left
    intro v hv
    by_cases hvu : v = u
    · subst hvu
      simp only [Function.comp]
      rw [crawl_page_url, if_pos rfl]
    · simp only [Function.comp]
      rw [crawl_page_url, if_neg hvu]
      exact (crawl_page_congr v (base_domain_of start) (hagree v hvu)).symm
  · rfl

/-- C2 witness: in a three-URL world where `https://a.com/p` times out, the
crawl of `https://a.com` still lists it once as the failure record, healing
the network changes only that page's record, and analysis of the failure
record gives `PAGE_NOT_ACCESSIBLE`. -/
theorem crawl_navigation_partial_failure_witness :
    (crawl_navigation oC2 "https://a.com").countP
        (fun p => p.url == "https://a.com/p") = 1 ∧
    failedRecord "https://a.com/p" "timeout" ∈ crawl_navigation oC2 "https://a.com" ∧
    crawl_navigation oC2ok "https://a.com" =
      (crawl_navigation oC2 "https://a.com").map
        (fun p => if p.url = "https://a.com/p"
          then crawl_page oC2ok "https://a.com/p" (base_domain_of "https://a.com") else p) ∧
    (analyze_page (failedRecord "https://a.com/p" "timeout")).issues =
      ["PAGE_NOT_ACCESSIBLE"] :=
  crawl_navigation_partial_failure oC2 oC2ok "https://a.com" "https://a.com/p" "timeout"
    (by decide) rfl
    (fun v hv => by
      unfold oC2ok
      rw [beq_eq_false_iff_ne.mpr hv]
      rfl)
    (by decide)
